import Mathlib

/-!
Shallow embedding of the ERPlora `module-customers` Django app
(`src/models.py`, `src/views.py`, `src/urls.py`).

Modelling conventions:
* `Decimal` money values become `Rat` (exact fixed-point arithmetic);
* timestamps (`created_at`, `updated_at`, `last_purchase_at`) become `Nat`
  instants; `strftime` formatting is abstracted as `toString`;
* the customer table is a `List Customer`; Django's `save()` on an existing
  row is an id-keyed replacement, and `auto_now` is modelled by passing the
  current instant `now` to every mutating handler;
* the optional `sales` collaborator is an `Option (List Sale)`: `none`
  models the `ImportError` branch (plugin not installed), `some sales`
  models a reachable dataset;
* an HTTP request's POST body is an association list `List (String × String)`
  (`request.POST.get k` = first value bound to `k`, `none` when absent) and
  the handler outcome is a `Response` value that distinguishes rendered
  pages, HTTP 404 (`Http404` propagating out of the view), and the JSON
  envelopes the views build;
* Django querysets become list pipelines: `filter` is `List.filter`,
  `order_by` is `List.insertionSort` with the corresponding key relation,
  slicing is `List.take`, `icontains` is case-insensitive substring search.
-/

/-- Customer row, after `src/models.py` (`class Customer`). -/
structure Customer where
  id : Nat
  name : String
  email : String
  phone : String
  address : String
  tax_id : String
  notes : String
  total_spent : Rat
  visit_count : Int
  is_active : Bool
  created_at : Nat
  updated_at : Nat
  last_purchase_at : Option Nat
  deriving DecidableEq, Repr

/-- Sale record of the external `sales` collaborator, as consumed by
`Customer.update_stats` / `Customer.get_recent_purchases`. -/
structure Sale where
  customer_name : String
  status : String
  total : Rat
  created_at : Nat
  deriving DecidableEq, Repr

/-- Lowercase the characters of a string (for `icontains`). -/
def lowerChars (s : String) : List Char :=
  s.data.map Char.toLower

/-- Character-list version of `String.startsWith`. -/
def charsStartWith : List Char → List Char → Bool
  | [], _ => true
  | _ :: _, [] => false
  | a :: as, b :: bs => a = b && charsStartWith as bs

/-- Substring test on character lists. -/
def charsContain (needle : List Char) : List Char → Bool
  | [] => needle.isEmpty
  | b :: bs => charsStartWith needle (b :: bs) || charsContain needle bs

/-- Django's `field__icontains=needle`: case-insensitive substring match. -/
def icontains (hay needle : String) : Bool :=
  charsContain (lowerChars needle) (lowerChars hay)

/-- Python `str.strip()`: drop leading and trailing whitespace, implemented
structurally on the character list so concrete instances reduce in the
kernel. -/
def pyStrip (s : String) : String :=
  ⟨((s.data.dropWhile Char.isWhitespace).reverse.dropWhile Char.isWhitespace).reverse⟩

/-- `request.POST.get k` — first value bound to `k`, `none` when absent. -/
def postGet (post : List (String × String)) (k : String) : Option String :=
  (post.find? (fun p => p.1 = k)).map (·.2)

/-- `request.POST.get k default`. -/
def postGetD (post : List (String × String)) (k d : String) : String :=
  (postGet post k).getD d

/-- Point lookup by primary key: `Customer.objects.get(id=cid)` /
`get_object_or_404`, `none` modelling the raised `Http404`. -/
def findCustomer (db : List Customer) (cid : Nat) : Option Customer :=
  db.find? (fun c => c.id = cid)

/-- Django `save()` on an existing row: replace the row with matching id. -/
def saveCustomer (db : List Customer) (c : Customer) : List Customer :=
  db.map (fun x => if x.id = c.id then c else x)

/-- Fresh primary key for `Customer.objects.create`. -/
def nextId (db : List Customer) : Nat :=
  (db.map (·.id)).foldr max 0 + 1

/-- Queryset key relation for `order_by('-created_at')` (newest first). -/
abbrev createdDescRel (a b : Customer) : Prop :=
  b.created_at ≤ a.created_at

instance : DecidableRel createdDescRel :=
  fun a b => inferInstanceAs (Decidable (b.created_at ≤ a.created_at))

instance : IsTotal Customer createdDescRel :=
  ⟨fun a b => Nat.le_total b.created_at a.created_at⟩

instance : IsTrans Customer createdDescRel :=
  ⟨fun _ _ _ hab hbc => Nat.le_trans hbc hab⟩

/-- Queryset key relation for `order_by('name')` (ascending). -/
abbrev nameAscRel (a b : Customer) : Prop :=
  a.name ≤ b.name

instance : DecidableRel nameAscRel :=
  fun a b => inferInstanceAs (Decidable (a.name ≤ b.name))

instance : IsTotal Customer nameAscRel :=
  ⟨fun a b => le_total a.name b.name⟩

instance : IsTrans Customer nameAscRel :=
  ⟨fun _ _ _ hab hbc => le_trans hab hbc⟩

/-- Sale key relation for `order_by('-created_at')` (newest first). -/
abbrev saleDescRel (a b : Sale) : Prop :=
  b.created_at ≤ a.created_at

instance : DecidableRel saleDescRel :=
  fun a b => inferInstanceAs (Decidable (b.created_at ≤ a.created_at))

instance : IsTotal Sale saleDescRel :=
  ⟨fun a b => Nat.le_total b.created_at a.created_at⟩

instance : IsTrans Sale saleDescRel :=
  ⟨fun _ _ _ hab hbc => Nat.le_trans hbc hab⟩

/-- `Sale.STATUS_COMPLETED`. -/
def STATUS_COMPLETED : String := "completed"

/-- The queryset `Sale.objects.filter(customer_name=self.name,
status=Sale.STATUS_COMPLETED)` shared by the two statistics methods. -/
def completedSalesFor (c : Customer) (sales : List Sale) : List Sale :=
  sales.filter (fun s => s.customer_name = c.name && s.status = STATUS_COMPLETED)

/-- Method `Customer.update_stats` (`src/models.py` lines 54–79). On
`none` (the `ImportError` branch) it is a silent no-op; otherwise it
recomputes `visit_count`, `total_spent`, conditionally `last_purchase_at`,
and persists via `self.save()` (which also refreshes `updated_at`). -/
def Customer.update_stats (c : Customer) (salesDb : Option (List Sale))
    (db : List Customer) (now : Nat) : Customer × List Customer :=
  match salesDb with
  | none => (c, db)
  | some allSales =>
    let sales : List Sale := completedSalesFor c allSales
    let c1 := { c with
      visit_count := (sales.length : Int),
      total_spent := (sales.map (fun s : Sale => s.total)).sum }
    let c2 :=
      match (List.insertionSort saleDescRel sales).head? with
      | some last_sale => { c1 with last_purchase_at := some last_sale.created_at }
      | none => c1
    let c3 := { c2 with updated_at := now }
    (c3, saveCustomer db c3)

/-- Method `Customer.get_recent_purchases` (`src/models.py` lines 81–92):
matching completed sales newest-first, truncated to `limit` (default 10 at
call sites); `[]` on the `ImportError` branch. -/
def Customer.get_recent_purchases (c : Customer) (salesDb : Option (List Sale))
    (limit : Nat) : List Sale :=
  match salesDb with
  | none => []
  | some allSales =>
    (List.insertionSort saleDescRel (completedSalesFor c allSales)).take limit

/-- Property `Customer.average_purchase` (`src/models.py` lines 94–101). -/
def Customer.average_purchase (c : Customer) : Rat :=
  if 0 < c.visit_count then c.total_spent / (c.visit_count : Rat) else 0

/-- Outcome of a request handler. `notFound` is an `Http404` escaping the
view (HTTP 404); the `json*` constructors are the `JsonResponse` envelopes
(HTTP 200); `page`/`detailPage` are rendered templates. -/
inductive Response where
  | page : Response
  | detailPage (recent_purchases : List Sale) : Response
  | notFound : Response
  | jsonOk (message : String) : Response
  | jsonCreated (message : String) (customer_id : Nat) : Response
  | jsonStats (total_spent : Rat) (visit_count : Int) (average_purchase : Rat) : Response
  | jsonError (error : String) : Response
  | csv (rows : List (List String)) : Response
  deriving DecidableEq, Repr

/-- Message of Django's `Http404` raised by `get_object_or_404(Customer, ...)`,
as seen through `str(e)` in the broad `except Exception` handlers. -/
def http404Message : String := "No Customer matches the given query."

/-- Localized validation message `'El nombre es obligatorio'`. -/
def nameRequiredMsg : String := "El nombre es obligatorio"

/-- View `customer_create` (`src/views.py` lines 83–131). `isPost = false`
renders the form; the POST branch trims the six form fields, rejects an
empty name, otherwise inserts a fresh row with default derived fields. -/
def customer_create (db : List Customer) (isPost : Bool)
    (post : List (String × String)) (now : Nat) : Response × List Customer :=
  if isPost then
    let name := pyStrip (postGetD post "name" "")
    let email := pyStrip (postGetD post "email" "")
    let phone := pyStrip (postGetD post "phone" "")
    let address := pyStrip (postGetD post "address" "")
    let tax_id := pyStrip (postGetD post "tax_id" "")
    let notes := pyStrip (postGetD post "notes" "")
    if name = "" then
      (Response.jsonError nameRequiredMsg, db)
    else
      let customer : Customer := {
        id := nextId db, name := name, email := email, phone := phone,
        address := address, tax_id := tax_id, notes := notes,
        total_spent := 0, visit_count := 0, is_active := true,
        created_at := now, updated_at := now, last_purchase_at := none }
      (Response.jsonCreated "Cliente creado correctamente" customer.id,
       db ++ [customer])
  else
    (Response.page, db)

/-- View `customer_detail` (`src/views.py` lines 134–155): the
`get_object_or_404` is not wrapped in a `try`, so a missing id propagates
`Http404`; otherwise the detail page renders with up to 10 recent
purchases. -/
def customer_detail (db : List Customer) (salesDb : Option (List Sale))
    (cid : Nat) : Response :=
  match findCustomer db cid with
  | none => Response.notFound
  | some customer =>
    Response.detailPage (customer.get_recent_purchases salesDb 10)

/-- View `customer_edit` (`src/views.py` lines 158–200): `get_object_or_404`
precedes the method branch (missing id → `Http404` for GET and POST). The
POST branch overwrites all six text fields with trimmed form values,
sets `is_active` from the exact comparison `POST.get('is_active') == 'on'`,
validates the new name, and only saves when validation passes. -/
def customer_edit (db : List Customer) (cid : Nat) (isPost : Bool)
    (post : List (String × String)) (now : Nat) : Response × List Customer :=
  match findCustomer db cid with
  | none => (Response.notFound, db)
  | some customer =>
    if isPost then
      let customer1 := { customer with
        name := pyStrip (postGetD post "name" ""),
        email := pyStrip (postGetD post "email" ""),
        phone := pyStrip (postGetD post "phone" ""),
        address := pyStrip (postGetD post "address" ""),
        tax_id := pyStrip (postGetD post "tax_id" ""),
        notes := pyStrip (postGetD post "notes" ""),
        is_active := postGet post "is_active" = some "on" }
      if customer1.name = "" then
        (Response.jsonError nameRequiredMsg, db)
      else
        (Response.jsonOk "Cliente actualizado correctamente",
         saveCustomer db { customer1 with updated_at := now })
    else
      (Response.page, db)

/-- View `customer_delete` (`src/views.py` lines 203–219): soft delete.
The whole body sits inside `try ... except Exception`, so the `Http404`
raised by `get_object_or_404` for a missing id is caught and reported as
`{'success': False, 'error': str(e)}` with HTTP 200 — not as a 404. -/
def customer_delete (db : List Customer) (cid : Nat) (now : Nat) :
    Response × List Customer :=
  match findCustomer db cid with
  | none => (Response.jsonError http404Message, db)
  | some customer =>
    let customer1 := { customer with is_active := false, updated_at := now }
    (Response.jsonOk "Cliente desactivado correctamente",
     saveCustomer db customer1)

/-- View `customer_update_stats` (`src/views.py` lines 222–239): recompute
statistics. As in `customer_delete`, the broad `except Exception` catches
the `Http404` of a missing id and turns it into a JSON error (HTTP 200). -/
def customer_update_stats (db : List Customer) (salesDb : Option (List Sale))
    (cid : Nat) (now : Nat) : Response × List Customer :=
  match findCustomer db cid with
  | none => (Response.jsonError http404Message, db)
  | some customer =>
    let r := customer.update_stats salesDb db now
    (Response.jsonStats r.1.total_spent r.1.visit_count r.1.average_purchase,
     r.2)

/-- Status-filter stage of `customer_list_ajax` as a row predicate:
`is_active=True` for `'active'`, `is_active=False` for `'inactive'`, no
restriction otherwise (`'all'` or any other value). -/
def passesStatus (status_filter : String) (c : Customer) : Bool :=
  if status_filter = "active" then c.is_active
  else if status_filter = "inactive" then !c.is_active
  else true

/-- Search stage of `customer_list_ajax` as a row predicate: when the
trimmed search text is non-empty, `name`, `phone`, `email` or `tax_id`
must contain it case-insensitively. -/
def passesSearch (search : String) (c : Customer) : Bool :=
  if search ≠ "" then
    icontains c.name search || icontains c.phone search ||
      icontains c.email search || icontains c.tax_id search
  else true

/-- Filter stage of `customer_list_ajax` (`src/views.py` lines 40–58):
status filter then optional search filter, with the view's parameter
defaults (`search` defaults to `''` and is stripped, `status` defaults to
`'active'`). `none` models an absent GET parameter. -/
def filteredCustomers (db : List Customer) (search_param status_param : Option String) :
    List Customer :=
  let search := pyStrip (search_param.getD "")
  let status_filter := status_param.getD "active"
  let customers := db
  let customers :=
    if status_filter = "active" then customers.filter (fun c => c.is_active)
    else if status_filter = "inactive" then customers.filter (fun c => !c.is_active)
    else customers
  if search ≠ "" then
    customers.filter (fun c =>
      icontains c.name search || icontains c.phone search ||
        icontains c.email search || icontains c.tax_id search)
  else customers

/-- View `customer_list_ajax` (`src/views.py` lines 35–80), returned as the
list of customer rows serialized into the JSON payload: the filter stage
(`filteredCustomers`), then `order_by('-created_at')`, then slice `[:100]`. -/
def customer_list_ajax (db : List Customer) (search_param status_param : Option String) :
    List Customer :=
  (List.insertionSort createdDescRel
    (filteredCustomers db search_param status_param)).take 100

/-- Fixed CSV header row of `customers_export`. -/
def csvHeader : List String :=
  ["Name", "Email", "Phone", "Tax ID", "Total Spent", "Visit Count", "Created At"]

/-- One CSV data row of `customers_export` (`writer.writerow([...])`);
numeric and date formatting abstracted as `toString`. -/
def csvRow (c : Customer) : List String :=
  [c.name, c.email, c.phone, c.tax_id, toString c.total_spent,
   toString c.visit_count, toString c.created_at]

/-- The queryset `Customer.objects.filter(is_active=True).order_by('name')`
streamed by the export view. -/
def exportCustomers (db : List Customer) : List Customer :=
  List.insertionSort nameAscRel (db.filter (fun c => c.is_active))

/-- View `customers_export` (`src/views.py` lines 242–268), as the list of
CSV rows written: header first, then one row per active customer ordered
by name ascending. -/
def customers_export (db : List Customer) : List (List String) :=
  csvHeader :: (exportCustomers db).map csvRow

/-! Helper lemmas shared by several claims. -/

/-- A point lookup that succeeds returns a row carrying the looked-up id. -/
theorem findCustomer_id {db : List Customer} {cid : Nat} {c : Customer}
    (hfind : findCustomer db cid = some c) : c.id = cid := by
  have := List.find?_some hfind
  exact of_decide_eq_true this

/-- Saving a row whose id resolves in the table makes the subsequent point
lookup return exactly the saved row. -/
theorem findCustomer_saveCustomer {db : List Customer} {cid : Nat} {c x : Customer}
    (hfind : findCustomer db cid = some c) (hid : x.id = cid) :
    findCustomer (saveCustomer db x) cid = some x := by
  induction db with
  | nil => simp [findCustomer] at hfind
  | cons a l ih =>
    by_cases ha : a.id = cid
    · simp [findCustomer, saveCustomer, ha, hid, List.find?_cons]
    · have ha' : a.id ≠ x.id := by rw [hid]; exact ha
      have hfind' : findCustomer l cid = some c := by
        simpa [findCustomer, List.find?_cons, ha] using hfind
      have := ih hfind'
      simpa [findCustomer, saveCustomer, List.find?_cons, ha, ha'] using this

/-- Sorting newest-first and taking the head yields a matching sale whose
creation time dominates the whole list. -/
theorem insertionSort_desc_head {l : List Sale} (hne : l ≠ []) :
    ∃ last_sale, (List.insertionSort saleDescRel l).head? = some last_sale
      ∧ last_sale ∈ l ∧ ∀ s ∈ l, s.created_at ≤ last_sale.created_at := by
  have hperm := List.perm_insertionSort saleDescRel l
  have hsorted := List.sorted_insertionSort saleDescRel l
  cases hsort : List.insertionSort saleDescRel l with
  | nil =>
    rw [hsort] at hperm
    exact absurd hperm.symm.eq_nil hne
  | cons a t =>
    rw [hsort] at hperm hsorted
    have hrel := (List.sorted_cons.mp hsorted).1
    refine ⟨a, rfl, hperm.subset (List.mem_cons_self a t), ?_⟩
    intro s hs
    have hs' : s ∈ a :: t := hperm.symm.subset hs
    rcases List.mem_cons.mp hs' with h | h
    · exact Nat.le_of_eq (congrArg Sale.created_at h)
    · exact hrel s h

/-! Claim theorems. -/

/-- C7: `average_purchase` equals `total_spent / visit_count` when
`visit_count` is positive and is exactly `0.00` otherwise, with no
division-by-zero failure (the function is total). -/
theorem average_purchase_spec (c : Customer) :
    (0 < c.visit_count → c.average_purchase = c.total_spent / (c.visit_count : Rat))
    ∧ (¬ 0 < c.visit_count → c.average_purchase = 0) := by
  constructor <;> intro h <;> simp [Customer.average_purchase, h]

/-- Customer fixture with `total_spent = 100.00`, `visit_count = 4`. -/
def custC7 : Customer :=
  { id := 1, name := "Regular Customer", email := "", phone := "", address := "",
    tax_id := "", notes := "", total_spent := 100, visit_count := 4,
    is_active := true, created_at := 0, updated_at := 0, last_purchase_at := none }

/-- Witness for C7: with `total_spent = 100.00` and `visit_count = 4` the
average is `25.00`; with `visit_count = 0` it is `0.00`. -/
theorem average_purchase_spec_witness :
    0 < custC7.visit_count
    ∧ custC7.average_purchase = 25
    ∧ ({ custC7 with visit_count := 0 } : Customer).average_purchase = 0 := by
  refine ⟨by decide, ?_, ?_⟩
  · rw [(average_purchase_spec custC7).1 (by decide)]
    show (100 : Rat) / ((4 : Int) : Rat) = 25
    norm_num
  · rw [(average_purchase_spec { custC7 with visit_count := 0 }).2 (by decide)]

/-- C4: with the sales collaborator unreachable (`ImportError` branch),
`update_stats` leaves the customer and the table untouched and signals no
failure, and `get_recent_purchases` returns the empty list. -/
theorem stats_unreachable_noop (c : Customer) (db : List Customer)
    (now : Nat) (limit : Nat) :
    c.update_stats none db now = (c, db)
    ∧ c.get_recent_purchases none limit = [] :=
  ⟨rfl, rfl⟩

/-- C1 (evaluation at the failing input): on a table with no customer
`99999`, the detail and edit views propagate `Http404`, but the delete and
update-stats views catch it via `except Exception` and answer with the
HTTP-200 JSON envelope `{'success': False, 'error': str(e)}` instead of a
404-equivalent. -/
theorem lookup_miss_responses :
    customer_detail [] none 99999 = Response.notFound
    ∧ customer_edit [] 99999 true [] 0 = (Response.notFound, [])
    ∧ customer_delete [] 99999 0 = (Response.jsonError http404Message, [])
    ∧ customer_update_stats [] none 99999 0 = (Response.jsonError http404Message, []) :=
  ⟨rfl, rfl, rfl, rfl⟩

/-- C8: the CSV export is the fixed header row followed by one row per
`is_active = true` customer (exactly those, never an inactive one), ordered
by name ascending. -/
theorem customers_export_spec (db : List Customer) :
    customers_export db = csvHeader :: (exportCustomers db).map csvRow
    ∧ (exportCustomers db).Perm (db.filter (fun c => c.is_active))
    ∧ List.Sorted nameAscRel (exportCustomers db)
    ∧ ∀ c ∈ exportCustomers db, c.is_active = true := by
  refine ⟨rfl, List.perm_insertionSort _ _, List.sorted_insertionSort _ _, ?_⟩
  intro c hc
  have hmem := (List.perm_insertionSort nameAscRel
    (db.filter (fun c => c.is_active))).subset hc
  exact List.of_mem_filter hmem

/-- Active customer fixture for the export witness. -/
def custC8 : Customer :=
  { id := 2, name := "Test Customer", email := "test@example.com",
    phone := "+34600123456", address := "Test Address", tax_id := "12345678Z",
    notes := "", total_spent := 0, visit_count := 0, is_active := true,
    created_at := 0, updated_at := 0, last_purchase_at := none }

/-- Witness for C8: on a one-row table the exported body consists of the
active customer, which indeed satisfies the membership hypothesis. -/
theorem customers_export_spec_witness :
    custC8 ∈ exportCustomers [custC8] ∧ custC8.is_active = true :=
  ⟨by decide, (customers_export_spec [custC8]).2.2.2 custC8 (by decide)⟩

/-- C2: a create POST or edit POST whose name trims to the empty string is
answered with the `success=false` envelope carrying the (non-empty)
localized message, and the table is left exactly as it was — in particular
the targeted customer of the edit still holds all its old field values. -/
theorem blank_name_rejected (db : List Customer) (post : List (String × String))
    (now cid : Nat) (c : Customer)
    (hname : pyStrip (postGetD post "name" "") = "")
    (hfind : findCustomer db cid = some c) :
    customer_create db true post now = (Response.jsonError nameRequiredMsg, db)
    ∧ nameRequiredMsg ≠ ""
    ∧ customer_edit db cid true post now = (Response.jsonError nameRequiredMsg, db)
    ∧ findCustomer (customer_edit db cid true post now).2 cid = some c := by
  have hc : customer_create db true post now = (Response.jsonError nameRequiredMsg, db) := by
    simp [customer_create, hname]
  have he : customer_edit db cid true post now = (Response.jsonError nameRequiredMsg, db) := by
    simp [customer_edit, hfind, hname]
  exact ⟨hc, by decide, he, by rw [he]; exact hfind⟩

/-- Whitespace-only-name POST body for the C2 witness. -/
def postBlank : List (String × String) :=
  [("name", "   "), ("email", "new@example.com")]

/-- One-row table fixture shared by the mutation witnesses. -/
def dbW : List Customer := [custC8]

/-- Witness for C2: a whitespace-only name is rejected by both create and
edit on a concrete one-row table, leaving it unchanged. -/
theorem blank_name_rejected_witness :
    customer_create dbW true postBlank 3 = (Response.jsonError nameRequiredMsg, dbW)
    ∧ customer_edit dbW 2 true postBlank 3 = (Response.jsonError nameRequiredMsg, dbW) := by
  have h := blank_name_rejected dbW postBlank 3 2 custC8 (by decide) (by decide)
  exact ⟨h.1, h.2.2.1⟩

/-- C9: a soft delete on a resolving id answers success, stores the same
record with only `is_active` flipped to `false` (and the `auto_now`
`updated_at` refreshed), and the record remains retrievable by its id. -/
theorem customer_delete_spec (db : List Customer) (cid now : Nat) (c : Customer)
    (hfind : findCustomer db cid = some c) :
    (customer_delete db cid now).1 = Response.jsonOk "Cliente desactivado correctamente"
    ∧ findCustomer (customer_delete db cid now).2 cid =
        some { c with is_active := false, updated_at := now } := by
  have hid : c.id = cid := findCustomer_id hfind
  have hres : customer_delete db cid now =
      (Response.jsonOk "Cliente desactivado correctamente",
       saveCustomer db { c with is_active := false, updated_at := now }) := by
    simp [customer_delete, hfind]
  rw [hres]
  exact ⟨rfl, findCustomer_saveCustomer hfind hid⟩

/-- Witness for C9: soft-deleting the only row of a concrete table. -/
theorem customer_delete_spec_witness :
    (customer_delete dbW 2 5).1 = Response.jsonOk "Cliente desactivado correctamente"
    ∧ findCustomer (customer_delete dbW 2 5).2 2 =
        some { custC8 with is_active := false, updated_at := 5 } :=
  ⟨(customer_delete_spec dbW 2 5 custC8 (by decide)).1,
   (customer_delete_spec dbW 2 5 custC8 (by decide)).2⟩

/-- C10: a successful edit POST stores a full replacement of the record:
every text field becomes the trimmed POST value (empty when the field is
absent), `is_active` becomes `true` exactly when the POST binds
`is_active` to the literal `'on'`, and the derived fields and `created_at`
carry over. -/
theorem customer_edit_success (db : List Customer) (cid now : Nat)
    (post : List (String × String)) (c : Customer)
    (hfind : findCustomer db cid = some c)
    (hname : pyStrip (postGetD post "name" "") ≠ "") :
    (customer_edit db cid true post now).1 =
        Response.jsonOk "Cliente actualizado correctamente"
    ∧ findCustomer (customer_edit db cid true post now).2 cid = some
        { id := c.id,
          name := pyStrip (postGetD post "name" ""),
          email := pyStrip (postGetD post "email" ""),
          phone := pyStrip (postGetD post "phone" ""),
          address := pyStrip (postGetD post "address" ""),
          tax_id := pyStrip (postGetD post "tax_id" ""),
          notes := pyStrip (postGetD post "notes" ""),
          total_spent := c.total_spent,
          visit_count := c.visit_count,
          is_active := decide (postGet post "is_active" = some "on"),
          created_at := c.created_at,
          updated_at := now,
          last_purchase_at := c.last_purchase_at }
    ∧ (decide (postGet post "is_active" = some "on") = true ↔
        postGet post "is_active" = some "on") := by
  have hid : c.id = cid := findCustomer_id hfind
  have hres : customer_edit db cid true post now =
      (Response.jsonOk "Cliente actualizado correctamente",
       saveCustomer db
        { id := c.id,
          name := pyStrip (postGetD post "name" ""),
          email := pyStrip (postGetD post "email" ""),
          phone := pyStrip (postGetD post "phone" ""),
          address := pyStrip (postGetD post "address" ""),
          tax_id := pyStrip (postGetD post "tax_id" ""),
          notes := pyStrip (postGetD post "notes" ""),
          total_spent := c.total_spent,
          visit_count := c.visit_count,
          is_active := decide (postGet post "is_active" = some "on"),
          created_at := c.created_at,
          updated_at := now,
          last_purchase_at := c.last_purchase_at }) := by
    simp [customer_edit, hfind, hname]
  rw [hres]
  exact ⟨rfl, findCustomer_saveCustomer hfind hid, decide_eq_true_iff⟩

/-- Edit POST body for the C10 witness: no `phone`, `address`, `tax_id`,
`notes` and — crucially — no `is_active` field. -/
def postEdit : List (String × String) :=
  [("name", " Updated Name "), ("email", "updated@example.com")]

/-- Witness for C10: editing the concrete one-row table blanks every
omitted text field and deactivates the customer because the POST body
omits `is_active`. -/
theorem customer_edit_success_witness :
    (customer_edit dbW 2 true postEdit 7).1 =
        Response.jsonOk "Cliente actualizado correctamente"
    ∧ findCustomer (customer_edit dbW 2 true postEdit 7).2 2 = some
        { id := 2, name := "Updated Name", email := "updated@example.com",
          phone := "", address := "", tax_id := "", notes := "",
          total_spent := 0, visit_count := 0, is_active := false,
          created_at := 0, updated_at := 7, last_purchase_at := none } := by
  have h := customer_edit_success dbW 2 7 postEdit custC8 (by decide) (by decide)
  exact ⟨h.1, h.2.1.trans (by decide)⟩

/-- C3: with a reachable sales dataset, `update_stats` sets `visit_count`
to the number of completed sales recorded under the customer's current
name, `total_spent` to the sum of their totals (`0.00` when there are
none), `last_purchase_at` to the creation time of the most recent matching
sale — left unchanged when none matches — and persists the record. -/
theorem update_stats_reachable (c : Customer) (sales : List Sale)
    (db : List Customer) (now : Nat)
    (hfind : findCustomer db c.id = some c) :
    (c.update_stats (some sales) db now).1.visit_count =
        ((completedSalesFor c sales).length : Int)
    ∧ (c.update_stats (some sales) db now).1.total_spent =
        ((completedSalesFor c sales).map (fun s : Sale => s.total)).sum
    ∧ (completedSalesFor c sales = [] →
        (c.update_stats (some sales) db now).1.last_purchase_at = c.last_purchase_at)
    ∧ (completedSalesFor c sales ≠ [] →
        ∃ t, (c.update_stats (some sales) db now).1.last_purchase_at = some t
          ∧ (∃ s ∈ completedSalesFor c sales, s.created_at = t)
          ∧ ∀ s ∈ completedSalesFor c sales, s.created_at ≤ t)
    ∧ findCustomer (c.update_stats (some sales) db now).2 c.id =
        some (c.update_stats (some sales) db now).1 := by
  by_cases hm : completedSalesFor c sales = []
  · refine ⟨?_, ?_, fun _ => ?_, fun hne => absurd hm hne, ?_⟩
    · simp [Customer.update_stats, hm]
    · simp [Customer.update_stats, hm]
    · simp [Customer.update_stats, hm]
    · simp only [Customer.update_stats, hm, List.insertionSort, List.head?]
      exact findCustomer_saveCustomer hfind rfl
  · obtain ⟨ls, hhead, hmem, hmax⟩ := insertionSort_desc_head hm
    refine ⟨?_, ?_, fun heq => absurd heq hm, fun _ => ?_, ?_⟩
    · simp [Customer.update_stats, hhead]
    · simp [Customer.update_stats, hhead]
    · simp only [Customer.update_stats, hhead]
      exact ⟨ls.created_at, rfl, ⟨ls, hmem, rfl⟩, hmax⟩
    · simp only [Customer.update_stats, hhead]
      exact findCustomer_saveCustomer hfind rfl

/-- Customer fixture for the reachable-stats witness. -/
def custC3 : Customer :=
  { id := 3, name := "Ana", email := "", phone := "", address := "", tax_id := "",
    notes := "", total_spent := 0, visit_count := 0, is_active := true,
    created_at := 0, updated_at := 0, last_purchase_at := none }

/-- Sales fixture: two completed sales for Ana (totals 30 and 20, created
at 10 and 8), one pending sale for Ana, one completed sale for Bob. -/
def salesC3 : List Sale :=
  [{ customer_name := "Ana", status := "completed", total := 30, created_at := 10 },
   { customer_name := "Ana", status := "pending", total := 99, created_at := 11 },
   { customer_name := "Bob", status := "completed", total := 50, created_at := 12 },
   { customer_name := "Ana", status := "completed", total := 20, created_at := 8 }]

/-- Witness for C3: on the concrete fixture the statistics update stores
`visit_count = 2`, `total_spent = 50.00`, `last_purchase_at = 10`, and the
updated record is retrievable. -/
theorem update_stats_reachable_witness :
    (custC3.update_stats (some salesC3) [custC3] 9).1.visit_count = 2
    ∧ (custC3.update_stats (some salesC3) [custC3] 9).1.total_spent = 50
    ∧ (custC3.update_stats (some salesC3) [custC3] 9).1.last_purchase_at = some 10
    ∧ findCustomer (custC3.update_stats (some salesC3) [custC3] 9).2 3 =
        some (custC3.update_stats (some salesC3) [custC3] 9).1 := by
  have h := update_stats_reachable custC3 salesC3 [custC3] 9 (by decide)
  have hfilter : completedSalesFor custC3 salesC3 =
      [{ customer_name := "Ana", status := "completed", total := 30, created_at := 10 },
       { customer_name := "Ana", status := "completed", total := 20, created_at := 8 }] := by
    decide
  refine ⟨h.1.trans (by decide), h.2.1.trans ?_, by decide, h.2.2.2.2⟩
  rw [hfilter]
  norm_num

/-- Membership in the filter stage of the listing API, characterized by
the status and search predicates. -/
theorem mem_filteredCustomers (db : List Customer)
    (search_param status_param : Option String) (c : Customer) :
    c ∈ filteredCustomers db search_param status_param ↔
      c ∈ db ∧ passesStatus (status_param.getD "active") c = true
        ∧ passesSearch (pyStrip (search_param.getD "")) c = true := by
  simp only [filteredCustomers, passesStatus, passesSearch]
  by_cases h1 : status_param.getD "active" = "active" <;>
    by_cases h2 : status_param.getD "active" = "inactive" <;>
      by_cases h3 : pyStrip (search_param.getD "") ≠ "" <;>
        simp [h1, h2, h3, List.mem_filter, and_assoc] <;> tauto

/-- The filter stage only removes rows from the table. -/
theorem filteredCustomers_sublist (db : List Customer)
    (search_param status_param : Option String) :
    List.Sublist (filteredCustomers db search_param status_param) db := by
  simp only [filteredCustomers]
  split_ifs <;>
    first
      | exact List.Sublist.refl _
      | exact List.filter_sublist _
      | exact (List.filter_sublist _).trans (List.filter_sublist _)

/-- C5 (amended): provided at most 100 rows pass the filters, the listing
API returns a customer iff it is stored, passes the status filter
(`active` by default) and, when the stripped search text is non-empty,
matches it case-insensitively in name, phone, email or tax id. -/
theorem customer_list_ajax_membership (db : List Customer)
    (search_param status_param : Option String) (c : Customer)
    (hsmall : (filteredCustomers db search_param status_param).length ≤ 100) :
    c ∈ customer_list_ajax db search_param status_param ↔
      c ∈ db ∧ passesStatus (status_param.getD "active") c = true
        ∧ passesSearch (pyStrip (search_param.getD "")) c = true := by
  rw [← mem_filteredCustomers]
  unfold customer_list_ajax
  have hperm := List.perm_insertionSort createdDescRel
    (filteredCustomers db search_param status_param)
  rw [List.take_of_length_le (by rw [hperm.length_eq]; exact hsmall)]
  exact hperm.mem_iff

/-- Witness for C5 (amended): the one-row table is under the cap and its
active customer is listed. -/
theorem customer_list_ajax_membership_witness :
    (filteredCustomers dbW none none).length ≤ 100
    ∧ (custC8 ∈ customer_list_ajax dbW none none ↔
        custC8 ∈ dbW ∧ passesStatus "active" custC8 = true
          ∧ passesSearch "" custC8 = true) :=
  ⟨by decide, customer_list_ajax_membership dbW none none custC8 (by decide)⟩

/-- Active customer with id and creation time `i`, for the cap fixtures. -/
def mkCust (i : Nat) : Customer :=
  { id := i, name := "c", email := "", phone := "", address := "", tax_id := "",
    notes := "", total_spent := 0, visit_count := 0, is_active := true,
    created_at := i, updated_at := 0, last_purchase_at := none }

/-- A table of 101 active customers, newest created first. -/
def db101 : List Customer :=
  ((List.range 101).reverse).map mkCust

/-- C5 (counterexample): with 101 active stored customers and a
filter-free request, the oldest customer passes the status filter and the
(empty) search restriction yet is absent from the response — the 100-row
cap falsifies the unrestricted membership equivalence. -/
theorem customer_list_ajax_membership_cex :
    mkCust 0 ∈ db101
    ∧ passesStatus "active" (mkCust 0) = true
    ∧ passesSearch "" (mkCust 0) = true
    ∧ mkCust 0 ∉ customer_list_ajax db101 none none :=
  ⟨by decide, by decide, by decide, by decide⟩

/-- C6: the listing API answer is ordered by `created_at` descending, caps
at 100 rows, and is the 100-prefix of the full sorted filtered set
(truncation after ordering); when creation times are pairwise distinct in
the table the descending order is strict. -/
theorem customer_list_ajax_ordered (db : List Customer)
    (search_param status_param : Option String) :
    List.Sorted createdDescRel (customer_list_ajax db search_param status_param)
    ∧ (customer_list_ajax db search_param status_param).length ≤ 100
    ∧ customer_list_ajax db search_param status_param =
        (List.insertionSort createdDescRel
          (filteredCustomers db search_param status_param)).take 100
    ∧ (List.Pairwise (fun a b : Customer => a.created_at ≠ b.created_at) db →
        List.Sorted (fun a b : Customer => b.created_at < a.created_at)
          (customer_list_ajax db search_param status_param)) := by
  have hsorted := List.sorted_insertionSort createdDescRel
    (filteredCustomers db search_param status_param)
  have hsub : List.Sublist (customer_list_ajax db search_param status_param)
      (List.insertionSort createdDescRel (filteredCustomers db search_param status_param)) :=
    List.take_sublist 100 _
  refine ⟨List.Pairwise.sublist hsub hsorted, ?_, rfl, ?_⟩
  · show (List.take 100 _).length ≤ 100
    rw [List.length_take]
    exact Nat.min_le_left _ _
  · intro hdist
    have hdistf := List.Pairwise.sublist
      (filteredCustomers_sublist db search_param status_param) hdist
    have hdists := ((List.perm_insertionSort createdDescRel
        (filteredCustomers db search_param status_param)).pairwise_iff
      (fun h => Ne.symm h)).mpr hdistf
    have hdtake := List.Pairwise.sublist hsub hdists
    have hgtake : List.Pairwise createdDescRel
        (customer_list_ajax db search_param status_param) :=
      List.Pairwise.sublist hsub hsorted
    exact (hgtake.and hdtake).imp
      (fun hab => Nat.lt_of_le_of_ne hab.1 (Ne.symm hab.2))

/-- Two-row table with distinct creation times for the ordering witness. -/
def dbC6 : List Customer := [mkCust 1, mkCust 2]

/-- Witness for C6: on a concrete two-row table the answer is (strictly)
newest-first and within the cap. -/
theorem customer_list_ajax_ordered_witness :
    List.Sorted createdDescRel (customer_list_ajax dbC6 none none)
    ∧ (customer_list_ajax dbC6 none none).length ≤ 100
    ∧ List.Sorted (fun a b : Customer => b.created_at < a.created_at)
        (customer_list_ajax dbC6 none none) := by
  have h := customer_list_ajax_ordered dbC6 none none
  exact ⟨h.1, h.2.1, h.2.2.2 (by decide)⟩
